import Mathlib

/-!
Verification development for the timeline-scraping engine of
`selenium_twitter_scraper.py`: the scroll-driven pagination loop
(`scrape_tweets`), per-element field extraction (`extract_tweet_data`)
with its multi-selector fallback for metrics and media, identity-based
deduplication, and the per-target session loop (`main`).

The Python source is embedded shallowly: browser responses (element
queries, attribute reads, measured document heights, presence of the
Show-more control) are inputs supplied by an environment value; the
control flow of the source is mirrored by total Lean functions.
Machine floats of the source appear only as products of parsed decimal
literals with powers of ten, which are modelled exactly by rationals.
-/

namespace Scraper

/-! ## String helpers modelling the Python string operations used -/

/-- Decidable check that the list `needle` starts the list `hay`. -/
def startsWith : List Char → List Char → Bool
  | [], _ => true
  | _ :: _, [] => false
  | a :: t1, b :: t2 => a = b && startsWith t1 t2

/-- Decidable check that `needle` occurs contiguously inside `hay`;
this models the Python substring test `needle in hay`. -/
def occursIn (needle : List Char) : List Char → Bool
  | [] => needle.isEmpty
  | b :: t => startsWith needle (b :: t) || occursIn needle t

/-- Python `needle in hay` on strings. -/
def strIn (needle hay : String) : Bool :=
  occursIn needle.toList hay.toList

/-- Python `str.lower()`; the sources feed it ASCII locators, on which
`Char.toLower` agrees with Python. -/
def lowerStr (s : String) : String :=
  String.mk (s.toList.map Char.toLower)

/-- Python `str.isdigit()` on the ASCII strings this program handles:
nonempty and all characters decimal digits. -/
def pyIsDigit (s : String) : Bool :=
  !s.toList.isEmpty && s.toList.all Char.isDigit

/-- Value of a string of decimal digits (used for Python `int(...)` on a
string that passed `isdigit`). -/
def digitsVal (l : List Char) : Nat :=
  l.foldl (fun a c => 10 * a + (c.toNat - 48)) 0

/-- Python `s.replace(c, "")` for a one-character pattern: every
occurrence of the character is removed. -/
def removeChar (c : Char) (s : String) : String :=
  String.mk (s.toList.filter (fun x => x ≠ c))

/-- Python `c in s` for a single character `c`. -/
def charIn (c : Char) (s : String) : Bool :=
  decide (c ∈ s.toList)

/-! ## The count parser of `extract_tweet_data` (source lines 251-260)

`float(text)` is modelled on optionally signed decimal-digit strings
with at most one decimal point, the only shapes this program feeds it;
any other string makes `float` raise, modelled as `none`.  The parsed
value is an exact rational; on the literals involved ("1.2" times 1000
and the like) the Python double rounds to the same value. -/

/-- Unsigned decimal literal: digits, optionally a point and more
digits, at least one digit overall. -/
def pyFloatCore (cs : List Char) : Option ℚ :=
  let ip := cs.takeWhile Char.isDigit
  let rest := cs.drop ip.length
  match rest with
  | [] => if ip.isEmpty then none else some (digitsVal ip)
  | '.' :: frac =>
      if frac.all Char.isDigit && !(ip.isEmpty && frac.isEmpty) then
        some ((digitsVal ip : ℚ) + (digitsVal frac : ℚ) / (10 : ℚ) ^ frac.length)
      else none
  | _ => none

/-- Python `float(s)` on the decimal shapes described above. -/
def pyFloat (s : String) : Option ℚ :=
  match s.toList with
  | '-' :: r => (pyFloatCore r).map (fun q => -q)
  | '+' :: r => pyFloatCore r
  | r => pyFloatCore r

/-- Conversion of a count text to a number, mirroring source lines
251-260: a K/M/B suffix (any occurrence of that character) scales the
`float` of the text with the character removed; otherwise `int` when
the text is all digits, else `0`.  `none` models the `float` call
raising, which the element loop catches and skips. -/
def parseCount (s : String) : Option ℚ :=
  if charIn 'K' s then (pyFloat (removeChar 'K' s)).map (fun q => q * 1000)
  else if charIn 'M' s then (pyFloat (removeChar 'M' s)).map (fun q => q * 1000000)
  else if charIn 'B' s then (pyFloat (removeChar 'B' s)).map (fun q => q * 1000000000)
  else if pyIsDigit s then some (digitsVal s.toList)
  else some 0

/-! ## Media extraction (source lines 274-297) -/

/-- Inputs the document supplies to the media-collection code of one
article: for each of the three photo selectors, the `src` attribute of
each returned `img` element (`none` models a missing attribute), and
the same for the video-player selector of the fallback. -/
structure MediaInput where
  photoSels : List (List (Option String))
  videoImgs : List (Option String)
deriving Repr

/-- Filter of source line 286: keep a src that is truthy, not already
collected, and whose lowercase form contains neither "profile" nor
"avatar". -/
def photoKeep (photos : List String) (src : String) : Bool :=
  src ≠ "" && !decide (src ∈ photos) &&
    !strIn "profile" (lowerStr src) && !strIn "avatar" (lowerStr src)

/-- Element loop of source lines 284-287 for one photo selector. -/
def addPhotoSrcs (photos : List String) : List (Option String) → List String
  | [] => photos
  | none :: rest => addPhotoSrcs photos rest
  | some src :: rest =>
      if photoKeep photos src then addPhotoSrcs (photos ++ [src]) rest
      else addPhotoSrcs photos rest

/-- Selector loop of source lines 278-287. -/
def collectPhotos (sels : List (List (Option String))) : List String :=
  sels.foldl addPhotoSrcs []

/-- Fallback loop of source lines 291-295: video thumbnails are kept
when truthy and not already collected; no substring exclusion here. -/
def addVideoSrcs (photos : List String) : List (Option String) → List String
  | [] => photos
  | none :: rest => addVideoSrcs photos rest
  | some src :: rest =>
      if src ≠ "" && !decide (src ∈ photos) then addVideoSrcs (photos ++ [src]) rest
      else addVideoSrcs photos rest

/-- Whole media-extraction block, source lines 274-297. -/
def extractPhotos (m : MediaInput) : List String :=
  let photos := collectPhotos m.photoSels
  if photos.isEmpty then addVideoSrcs [] m.videoImgs else photos

/-! ## Metric extraction (source lines 220-272)

The source tries, for each of the metrics reply / retweet / like, two
selectors in order; each selector returns a list of elements, and each
element offers a visible counter sub-element and an aria-label
attribute.  An element whose processing raises is skipped, which is
also what happens when it offers no count text, so both are `none`
below. -/

/-- What the document supplies for one element returned by a metric
selector: the text of the counter sub-element when that sub-element is
present, and the aria-label attribute value when set.  `fault` models
any exception while handling this element (caught at line 264). -/
structure MetricElem where
  fault : Bool
  spanText : Option String
  ariaLabel : Option String
deriving Repr

/-- Regex `\d+(?:\.\d+)?[KMB]?` match starting at a digit: maximal
digit run, then an optional point with a nonempty maximal digit run,
then an optional single K/M/B. -/
def numTokenAt (cs : List Char) : List Char :=
  let ds := cs.takeWhile Char.isDigit
  let rest := cs.drop ds.length
  let withFrac :=
    match rest with
    | '.' :: r =>
        let f := r.takeWhile Char.isDigit
        if f.isEmpty then (ds, rest) else (ds ++ '.' :: f, r.drop f.length)
    | _ => (ds, rest)
  match withFrac.2 with
  | c :: _ => if c = 'K' || c = 'M' || c = 'B' then withFrac.1 ++ [c] else withFrac.1
  | [] => withFrac.1

/-- Leftmost match of `\d+(?:\.\d+)?[KMB]?` in a string, as
`re.search` of source line 247 finds it; a match always starts at a
digit. -/
def findNumToken : List Char → Option (List Char)
  | [] => none
  | c :: t => if c.isDigit then some (numTokenAt (c :: t)) else findNumToken t

/-- Count contributed by one metric element, source lines 232-265:
counter sub-element text first, else the first numeric token of a
truthy aria-label, giving the count text; an empty count text or a
raising `float` leaves the element without effect (`none`), otherwise
the parsed count is assigned and the element loop breaks. -/
def elemCount (e : MetricElem) : Option ℚ :=
  if e.fault then none
  else
    let fromSpan := match e.spanText with
      | some t => t
      | none => ""
    let ct :=
      if fromSpan = "" then
        match e.ariaLabel with
        | some lbl =>
            if lbl = "" then ""
            else match findNumToken lbl.toList with
              | some tok => String.mk tok
              | none => ""
        | none => ""
      else fromSpan
    if ct = "" then none else parseCount ct

/-- Element loop of source lines 232-265 for one selector: the first
element that assigns a count wins and breaks the loop. -/
def runSelector : List MetricElem → Option ℚ
  | [] => none
  | e :: rest =>
      match elemCount e with
      | some c => some c
      | none => runSelector rest

/-- Selector loop of source lines 229-270 for one metric: `cur` is the
value stored so far for the metric (initially `0`); after each
selector the stored value is checked and a positive value breaks the
loop. -/
def resolveMetric (cur : ℚ) : List (List MetricElem) → ℚ
  | [] => cur
  | sel :: rest =>
      let cur2 := match runSelector sel with
        | some c => c
        | none => cur
      if 0 < cur2 then cur2 else resolveMetric cur2 rest

/-! ## Whole-article extraction (`extract_tweet_data`, lines 194-312) -/

/-- Inputs the document supplies for one article element with
data-testid "tweet": the href of the first status anchor (`none`
models `NoSuchElementException`), the tweet-text element text, the
datetime attribute of the time element (outer `none` models a missing
time element, inner `none` a missing attribute), the element lists of
the two selectors per metric, and the media inputs. -/
structure ArticleInput where
  statusHref : Option String
  textEl : Option String
  timeEl : Option (Option String)
  reply1 : List MetricElem
  reply2 : List MetricElem
  retweet1 : List MetricElem
  retweet2 : List MetricElem
  like1 : List MetricElem
  like2 : List MetricElem
  media : MediaInput
deriving Repr

/-- Leftmost match of `/status/(\d+)` as in source line 200: the first
position where "/status/" is followed by at least one digit, returning
the maximal digit run there. -/
def statusDigits : List Char → Option (List Char)
  | [] => none
  | c :: t =>
      if startsWith "/status/".toList (c :: t) then
        let ds := ((c :: t).drop 8).takeWhile Char.isDigit
        if ds.isEmpty then statusDigits t else some ds
      else statusDigits t

/-- Extracted record, the dict of source lines 299-308.  `timestamp`
is `none` when the time element is present but its datetime attribute
is not (Python `None`).  `replies` reproduces source line 304:
`metrics.get("replies", 0)` reads the key initialised at line 221,
while line 262 wrote the reply count under the key "replys"
(`f"{metric}s"` with metric "reply"), so the stored reply count is the
untouched initial `0`. -/
structure PostRecord where
  id : String
  url : String
  text : String
  timestamp : Option String
  replies : ℚ
  retweets : ℚ
  likes : ℚ
  photos : List String
deriving Repr, DecidableEq

/-- Model of `extract_tweet_data`: `none` models returning Python
`None`, which happens when no status anchor exists or its href has no
`/status/<digits>` segment (lines 197-203). -/
def extract_tweet_data (a : ArticleInput) : Option PostRecord :=
  match a.statusHref with
  | none => none
  | some href =>
      match statusDigits href.toList with
      | none => none
      | some ds =>
          some {
            id := String.mk ds
            url := href
            text := match a.textEl with
              | some t => t
              | none => ""
            timestamp := match a.timeEl with
              | some attr => attr
              | none => some ""
            replies := 0
            retweets := resolveMetric 0 [a.retweet1, a.retweet2]
            likes := resolveMetric 0 [a.like1, a.like2]
            photos := extractPhotos a.media }

/-- Reply-metric resolution the source performs at lines 229-268 for
metric "reply": the value is computed and drives the break conditions,
but is stored under the misspelled key "replys" and never reaches the
returned record. -/
def replyResolved (a : ArticleInput) : ℚ :=
  resolveMetric 0 [a.reply1, a.reply2]

/-! ## The pagination loop (`scrape_tweets`, lines 96-191) -/

/-- Number of tweets to fetch per company, source line 53. -/
def TWEET_LIMIT : Nat := 100

/-- Ceiling on scroll attempts, source line 117. -/
def max_scroll_attempts : Nat := 30

/-- One article of a scan cycle, as the per-article loop of lines
134-143 sees it: reading its attributes may raise (caught and skipped,
lines 141-143), its data-testid may differ from "tweet", or it is a
tweet article handed to `extract_tweet_data`. -/
inductive ArticleOutcome where
  | fault : ArticleOutcome
  | notTweet : ArticleOutcome
  | tweet : ArticleInput → ArticleOutcome

/-- What the document supplies during one scan cycle: the article
elements found at line 130, presence of the Show-more control (line
151), and the three document heights the cycle may measure at lines
165, 169 and 177. -/
structure Cycle where
  articles : List ArticleOutcome
  showMore : Bool
  h1 : Int
  h2 : Int
  h3 : Int

/-- Whole-run inputs: whether the initial wait of lines 105-111 finds
an article before its timeout, the initial height of line 115, and the
per-cycle inputs (cycle numbers start at 1). -/
structure ScrapeEnv where
  loaded : Bool
  h0 : Int
  cycle : Nat → Cycle

/-- Projection of the accepted ids, the list comprehension of line
138. -/
def idsOf (tweets : List PostRecord) : List String :=
  tweets.map PostRecord.id

/-- Per-article loop of lines 134-143: a fault or a non-tweet article
is skipped; an extracted record is appended unless its id was already
accepted. -/
def processArticles (acc : List PostRecord) : List ArticleOutcome → List PostRecord
  | [] => acc
  | .fault :: rest => processArticles acc rest
  | .notTweet :: rest => processArticles acc rest
  | .tweet a :: rest =>
      match extract_tweet_data a with
      | none => processArticles acc rest
      | some t =>
          if t.id ∈ idsOf acc then processArticles acc rest
          else processArticles (acc ++ [t]) rest

/-- Stall bookkeeping of lines 145-162 for one cycle.  Input: the
counter so far, whether the cycle accepted no new record, and whether
the Show-more control exists.  Output: the new counter and whether the
final-exhaustion break of line 160 fires.  Growth or a found control
resets the counter; the break fires exactly when the cycle grew
nothing, the incremented counter has reached 5, and the control is
absent — no height is consulted here. -/
def stallStep (noNew : Nat) (same : Bool) (showMore : Bool) : Nat × Bool :=
  if same then
    let n := noNew + 1
    if 3 ≤ n then
      if showMore then (0, false)
      else if 5 ≤ n then (n, true)
      else (n, false)
    else (n, false)
  else (0, false)

/-- Height bookkeeping of lines 164-182: up to three measurements are
compared against the height of the previous cycle; `none` models the
end-of-timeline break of line 180, otherwise the height carried into
the next cycle is returned (line 182). -/
def heightStep (last h1 h2 h3 : Int) : Option Int :=
  if h1 = last then
    if h2 = last then
      if h3 = last then none else some h3
    else some h2
  else some h1

/-- Why the loop ended. -/
inductive ExitReason where
  | loadTimeout : ExitReason
  | limitReached : ExitReason
  | maxScrolls : ExitReason
  | exhaustion : ExitReason
  | heightStall : ExitReason
deriving Repr, DecidableEq

/-- Result of a run: the accepted records in acceptance order, the
exit path taken, and how many scan cycles ran. -/
structure ScrapeResult where
  tweets : List PostRecord
  reason : ExitReason
  attempts : Nat
deriving DecidableEq

/-- Mutable state of the while loop, lines 114-118. -/
structure LoopState where
  tweets : List PostRecord
  lastHeight : Int
  attempts : Nat
  noNew : Nat

/-- While loop of lines 120-188.  The guard is evaluated as in the
source: the record ceiling first, then the scroll-attempt ceiling;
`fuel` equals `max_scroll_attempts - attempts`, so fuel 0 is the
exhausted attempt counter. -/
def loopAux (env : ScrapeEnv) : Nat → LoopState → ScrapeResult
  | 0, s =>
      if TWEET_LIMIT ≤ s.tweets.length then ⟨s.tweets, .limitReached, s.attempts⟩
      else ⟨s.tweets, .maxScrolls, s.attempts⟩
  | fuel + 1, s =>
      if TWEET_LIMIT ≤ s.tweets.length then ⟨s.tweets, .limitReached, s.attempts⟩
      else
        let c := env.cycle (s.attempts + 1)
        let tweets2 := processArticles s.tweets c.articles
        let p := stallStep s.noNew (tweets2.length == s.tweets.length) c.showMore
        if p.2 then ⟨tweets2, .exhaustion, s.attempts + 1⟩
        else
          match heightStep s.lastHeight c.h1 c.h2 c.h3 with
          | none => ⟨tweets2, .heightStall, s.attempts + 1⟩
          | some h => loopAux env fuel ⟨tweets2, h, s.attempts + 1, p.1⟩

/-- Model of `scrape_tweets`: a timed-out initial wait returns the
empty list at line 111; otherwise the while loop runs from the empty
accumulator. -/
def scrape_tweets (env : ScrapeEnv) : ScrapeResult :=
  if env.loaded then loopAux env max_scroll_attempts ⟨[], env.h0, 0, 0⟩
  else ⟨[], .loadTimeout, 0⟩

/-! ## The session loop (`main`, lines 486-565) -/

/-- One target of the batch, an entry of COMPANIES. -/
structure Company where
  name : String
  handle : String
deriving Repr, DecidableEq

/-- One row of the summary table, lines 495 and 527-550. -/
structure SummaryRow where
  company : String
  handle : String
  file : String
  tweetCount : Nat
  imageCount : Nat
deriving Repr, DecidableEq

/-- How one iteration of the per-company loop goes: either every stage
outside the scrape succeeds and the scrape sees the given environment,
or an exception is raised at some stage of the body (caught at line
544). -/
inductive TargetOutcome where
  | run : ScrapeEnv → TargetOutcome
  | fault : String → TargetOutcome

/-- Path of the per-target CSV, abstracting the timestamp
`save_to_csv` embeds in the name (line 362). -/
def outputFileName (handle : String) : String :=
  handle ++ "_tweets.csv"

/-- Media-bearing record count of line 524: records whose photo list
is truthy, that is nonempty. -/
def countWithImages (tweets : List PostRecord) : Nat :=
  (tweets.filter (fun t => !t.photos.isEmpty)).length

/-- One iteration of the per-company loop, lines 509-550, reduced to
the summary row it appends: a fault gives an error row with zero
counts; an empty scrape gives the "No tweets found" row with zero
counts; otherwise the saved-file row with the record and image
counts. -/
def processTarget (c : Company) (o : TargetOutcome) : SummaryRow :=
  match o with
  | .fault msg => ⟨c.name, c.handle, "Error: " ++ msg, 0, 0⟩
  | .run env =>
      let tweets := (scrape_tweets env).tweets
      if tweets.isEmpty then ⟨c.name, c.handle, "No tweets found", 0, 0⟩
      else ⟨c.name, c.handle, outputFileName c.handle, tweets.length, countWithImages tweets⟩

/-- Per-company loop of `main`, lines 498-563: one summary row per
company, each computed independently of the others. -/
def mainLoop (targets : List (Company × TargetOutcome)) : List SummaryRow :=
  targets.map (fun p => processTarget p.1 p.2)

/-! ## Concrete scenario inputs used by the theorems below -/

/-- Article with no attached media. -/
def emptyMedia : MediaInput := ⟨[], []⟩

/-- Tweet article with a given status id and text and nothing else. -/
def mkArt (i txt : String) : ArticleOutcome :=
  .tweet ⟨some ("https://x.com/a/status/" ++ i), some txt, some (some "2024-01-01"),
    [], [], [], [], [], [], emptyMedia⟩

/-- Scan cycles of the dedup scenario: ids 1,2 then 2,3 then 4, the
repeated 2 carrying a different text. -/
def dedupArts : Nat → List ArticleOutcome
  | 1 => [mkArt "1" "t1", mkArt "2" "first"]
  | 2 => [mkArt "2" "second", mkArt "3" "t3"]
  | 3 => [mkArt "4" "t4"]
  | _ => []

/-- Environment of the dedup scenario; heights grow every cycle so no
height-based exit interferes. -/
def dedupEnv : ScrapeEnv :=
  ⟨true, 0, fun n => ⟨dedupArts n, false, (n : Int), (n : Int), (n : Int)⟩⟩

/-- Environment with no tweet articles, no Show-more control and a
document height that changes at every measurement of line 165. -/
def growingEmptyEnv : ScrapeEnv :=
  ⟨true, 0, fun n => ⟨[], false, (n : Int), (n : Int), (n : Int)⟩⟩

/-- Tweet article carrying only a numeric status id. -/
def mkIdArt (i : Nat) : ArticleOutcome :=
  .tweet ⟨some ("h/status/" ++ toString i), none, none, [], [], [], [], [], [], emptyMedia⟩

/-- Scan cycles of the ceiling scenario: 99 distinct tweets, then 5
more distinct tweets. -/
def ceilingArts : Nat → List ArticleOutcome
  | 1 => (List.range 99).map mkIdArt
  | 2 => (List.range 5).map (fun i => mkIdArt (100 + i))
  | _ => []

/-- Environment of the ceiling scenario. -/
def ceilingEnv : ScrapeEnv :=
  ⟨true, 0, fun n => ⟨ceilingArts n, false, (n : Int), (n : Int), (n : Int)⟩⟩

/-- Article whose reply selector returns a counter element with
visible text "7", whose retweet selector matches an element with
aria-label "12 retweets", and whose like selector returns a counter
with text "340". -/
def metricArticle : ArticleInput :=
  ⟨some "h/status/55", none, none,
    [⟨false, some "7", none⟩], [],
    [⟨false, none, some "12 retweets"⟩], [],
    [⟨false, some "340", none⟩], [],
    emptyMedia⟩

/-- Environment whose initial wait for an article times out. -/
def timeoutEnv : ScrapeEnv :=
  ⟨false, 0, fun _ => ⟨[], false, 0, 0, 0⟩⟩

/-- Sample targets of the batch. -/
def compA : Company := ⟨"Alpha Ltd", "alpha"⟩

/-- Second sample target. -/
def compB : Company := ⟨"Beta Ltd", "beta"⟩

/-! ## Claim C1: the avatar/profile exclusion filter -/

/-- Entries appended by the photo-selector element loop all pass the
substring filter of line 286. -/
theorem addPhotoSrcs_clean (l : List (Option String)) :
    ∀ photos : List String,
    (∀ x ∈ photos,
      strIn "profile" (lowerStr x) = false ∧ strIn "avatar" (lowerStr x) = false) →
    ∀ x ∈ addPhotoSrcs photos l,
      strIn "profile" (lowerStr x) = false ∧ strIn "avatar" (lowerStr x) = false := by
  induction l with
  | nil => intro photos h x hx; exact h x hx
  | cons o rest ih =>
    intro photos h x hx
    cases o with
    | none => exact ih photos h x hx
    | some src =>
      simp only [addPhotoSrcs] at hx
      by_cases hk : photoKeep photos src = true
      · rw [if_pos hk] at hx
        refine ih (photos ++ [src]) ?_ x hx
        intro y hy
        rcases List.mem_append.1 hy with hy | hy
        · exact h y hy
        · have hysrc : y = src := by simpa using hy
          subst hysrc
          simp only [photoKeep, Bool.and_eq_true, Bool.not_eq_true'] at hk
          exact ⟨hk.1.2, hk.2⟩
      · rw [if_neg hk] at hx
        exact ih photos h x hx

/-- Entries of `collectPhotos` all pass the substring filter. -/
theorem collectPhotos_clean (sels : List (List (Option String))) :
    ∀ x ∈ collectPhotos sels,
      strIn "profile" (lowerStr x) = false ∧ strIn "avatar" (lowerStr x) = false := by
  have key : ∀ (l : List (List (Option String))) (init : List String),
      (∀ x ∈ init,
        strIn "profile" (lowerStr x) = false ∧ strIn "avatar" (lowerStr x) = false) →
      ∀ x ∈ l.foldl addPhotoSrcs init,
        strIn "profile" (lowerStr x) = false ∧ strIn "avatar" (lowerStr x) = false := by
    intro l
    induction l with
    | nil => intro init h; simpa using h
    | cons s rest ih =>
      intro init h
      exact ih (addPhotoSrcs init s) (addPhotoSrcs_clean s init h)
  intro x hx
  exact key sels [] (by simp) x hx

/-- Claim C1, amended: every locator collected through the three
photo-selector paths of lines 278-287 contains neither "profile" nor
"avatar" as a case-insensitive substring; the video-thumbnail fallback
of lines 290-295 applies no such exclusion. -/
theorem claim_C1_photo_filter (sels : List (List (Option String))) (s : String)
    (h : s ∈ collectPhotos sels) :
    strIn "profile" (lowerStr s) = false ∧ strIn "avatar" (lowerStr s) = false :=
  collectPhotos_clean sels s h

/-- Claim C1, witness for the amended theorem at a concrete collected
locator. -/
theorem claim_C1_photo_filter_witness :
    strIn "profile" (lowerStr "https://pbs.twimg.com/media/pic1.jpg") = false ∧
    strIn "avatar" (lowerStr "https://pbs.twimg.com/media/pic1.jpg") = false :=
  claim_C1_photo_filter [[some "https://pbs.twimg.com/media/pic1.jpg"]]
    "https://pbs.twimg.com/media/pic1.jpg" (by decide)

/-- Claim C1, counterexample to the claim as stated: an article with
no photo locator and one video thumbnail whose src contains "avatar"
puts that src into the record, so the exclusion does not hold on the
video-thumbnail fallback path. -/
theorem claim_C1_cex :
    extractPhotos ⟨[[], [], []], [some "https://pbs.twimg.com/avatar123.jpg"]⟩ =
      ["https://pbs.twimg.com/avatar123.jpg"] ∧
    strIn "avatar" (lowerStr "https://pbs.twimg.com/avatar123.jpg") = true :=
  ⟨rfl, by decide⟩

/-! ## Claim C4: the metric-count parser -/

/-- Unsigned decimal parses are non-negative. -/
theorem pyFloatCore_nonneg (cs : List Char) (q : ℚ) (h : pyFloatCore cs = some q) :
    0 ≤ q := by
  simp only [pyFloatCore] at h
  split at h
  · split at h
    · exact absurd h (by simp)
    · have hq : ((digitsVal (cs.takeWhile Char.isDigit) : ℚ)) = q := by
        simpa using h
      rw [← hq]
      positivity
  · split at h
    · have hq : _ = q := Option.some_injective _ h
      rw [← hq]
      positivity
    · exact absurd h (by simp)
  · exact absurd h (by simp)

/-- Parses of strings with no minus sign are non-negative. -/
theorem pyFloat_nonneg (s : String) (q : ℚ) (hm : '-' ∉ s.toList)
    (h : pyFloat s = some q) : 0 ≤ q := by
  simp only [pyFloat] at h
  split at h
  · exact absurd (by rw [‹s.toList = _›]; exact List.mem_cons_self _ _) hm
  · exact pyFloatCore_nonneg _ q h
  · exact pyFloatCore_nonneg _ q h

/-- Removing a character keeps a string free of a character it did not
contain. -/
theorem removeChar_not_mem (c d : Char) (s : String) (hm : d ∈ (removeChar c s).toList) :
    d ∈ s.toList := by
  simpa [removeChar, String.toList] using List.mem_of_mem_filter hm

/-- Counts parsed from a text with no minus sign are non-negative. -/
theorem parseCount_nonneg (s : String) (q : ℚ) (hm : charIn '-' s = false)
    (h : parseCount s = some q) : 0 ≤ q := by
  have hmem : '-' ∉ s.toList := by
    intro hc
    simp only [charIn, decide_eq_false_iff_not] at hm
    exact hm hc
  simp only [parseCount] at h
  split_ifs at h
  · rcases Option.map_eq_some'.1 h with ⟨a, ha, hq⟩
    have : 0 ≤ a :=
      pyFloat_nonneg _ a (fun hc => hmem (removeChar_not_mem _ _ _ hc)) ha
    rw [← hq]
    positivity
  · rcases Option.map_eq_some'.1 h with ⟨a, ha, hq⟩
    have : 0 ≤ a :=
      pyFloat_nonneg _ a (fun hc => hmem (removeChar_not_mem _ _ _ hc)) ha
    rw [← hq]
    positivity
  · rcases Option.map_eq_some'.1 h with ⟨a, ha, hq⟩
    have : 0 ≤ a :=
      pyFloat_nonneg _ a (fun hc => hmem (removeChar_not_mem _ _ _ hc)) ha
    rw [← hq]
    positivity
  · have hq : _ = q := Option.some_injective _ h
    rw [← hq]
    positivity
  · have hq : _ = q := Option.some_injective _ h
    rw [← hq]

/-- Claim C4, amended: the parser maps "1.2K" to 1200, "3M" to
3000000, "0" to 0 and unparseable text to 0, and every count text free
of a minus sign parses to a non-negative count; a text with a leading
minus, reachable through the visible-counter path, parses negative. -/
theorem claim_C4_counts :
    parseCount "1.2K" = some 1200 ∧ parseCount "3M" = some 3000000 ∧
    parseCount "0" = some 0 ∧ parseCount "reposts" = some 0 ∧
    (∀ s q, charIn '-' s = false → parseCount s = some q → 0 ≤ q) := by
  refine ⟨?_, ?_, by decide, by decide, fun s q hm h => parseCount_nonneg s q hm h⟩
  · rw [show parseCount "1.2K" = some (((1 : ℚ) + (2 : ℚ) / 10 ^ 1) * 1000) from rfl]
    norm_num
  · rw [show parseCount "3M" = some ((3 : ℚ) * 1000000) from rfl]
    norm_num

/-- Claim C4, counterexample to non-negativity over every input
string: the count text "-1K" parses to -1000. -/
theorem claim_C4_cex :
    parseCount "-1K" = some (-1000) ∧ ¬ ((0 : ℚ) ≤ -1000) := by
  constructor
  · rw [show parseCount "-1K" = some (-(1 : ℚ) * 1000) from rfl]
    norm_num
  · norm_num

/-! ## Claim C5: the final-exhaustion exit -/

/-- Claim C5, counterexample to the claim as stated: in an environment
whose measured document height changes at every cycle (initial height
0, then 1,2,3,4,5), the loop still exits through the final-exhaustion
break after five cycles with no new records — the break consults the
no-growth counter and the Show-more control only, not the height. -/
theorem claim_C5_cex :
    (scrape_tweets growingEmptyEnv).reason = ExitReason.exhaustion ∧
    (scrape_tweets growingEmptyEnv).attempts = 5 ∧
    growingEmptyEnv.h0 = 0 ∧
    (growingEmptyEnv.cycle 1).h1 = 1 ∧ (growingEmptyEnv.cycle 2).h1 = 2 ∧
    (growingEmptyEnv.cycle 3).h1 = 3 ∧ (growingEmptyEnv.cycle 4).h1 = 4 ∧
    (growingEmptyEnv.cycle 5).h1 = 5 :=
  ⟨rfl, rfl, rfl, rfl, rfl, rfl, rfl, rfl⟩

/-- Claim C5, amended: the final-exhaustion break fires exactly when a
scan cycle accepts no new record, the incremented no-growth counter
has reached the exhaustion threshold 5 (strictly above the recovery
threshold 3 that triggers the Show-more attempt), and the Show-more
control is absent; the measured document height is not consulted on
this path — height stagnation is a separate, independent exit. -/
theorem claim_C5_exhaustion :
    (∀ n sm, (stallStep n true sm).2 = true ↔ (sm = false ∧ 5 ≤ n + 1)) ∧
    (∀ n sm, (stallStep n false sm).2 = false) := by
  constructor
  · intro n sm
    cases sm with
    | false =>
      simp only [stallStep]
      split_ifs <;> simp_all
      omega
    | true =>
      simp only [stallStep]
      split_ifs <;> simp_all
  · intro n sm
    simp [stallStep]

/-! ## Claim C8: metric strategy resolution and the reply-key slip -/

/-- Claim C8, evaluation at the failing input: for an article whose
reply selector yields the visible count 7, the resolution loop
computes 7 for the reply metric, yet the returned record carries
replies = 0, because line 262 stores the count under the misspelled
key "replys" while line 304 reads "replies"; the retweet and like
metrics reach the record as resolved. -/
theorem claim_C8_eval :
    (extract_tweet_data metricArticle).map PostRecord.replies = some 0 ∧
    replyResolved metricArticle = 7 ∧
    (extract_tweet_data metricArticle).map PostRecord.retweets = some 12 ∧
    (extract_tweet_data metricArticle).map PostRecord.likes = some 340 := by
  exact ⟨rfl, by decide, by decide, by decide⟩

/-! ## Claim C6: per-element fault containment -/

/-- Skipping of a raising article, lines 141-143. -/
theorem processArticles_skip_fault (xs ys : List ArticleOutcome) :
    ∀ acc : List PostRecord,
      processArticles acc (xs ++ ArticleOutcome.fault :: ys) =
        processArticles acc (xs ++ ys) := by
  induction xs with
  | nil => intro acc; simp [processArticles]
  | cons a rest ih =>
    intro acc
    cases a with
    | fault => simpa [processArticles] using ih acc
    | notTweet => simpa [processArticles] using ih acc
    | tweet art =>
      cases h : extract_tweet_data art with
      | none => simpa [processArticles, h] using ih acc
      | some t =>
        simp only [List.cons_append, processArticles, h]
        split
        · exact ih acc
        · exact ih (acc ++ [t])

/-- Skipping of an article whose extraction returns no record. -/
theorem processArticles_skip_failed (xs ys : List ArticleOutcome) (a : ArticleInput)
    (hfail : extract_tweet_data a = none) :
    ∀ acc : List PostRecord,
      processArticles acc (xs ++ ArticleOutcome.tweet a :: ys) =
        processArticles acc (xs ++ ys) := by
  induction xs with
  | nil => intro acc; simp [processArticles, hfail]
  | cons b rest ih =>
    intro acc
    cases b with
    | fault => simpa [processArticles] using ih acc
    | notTweet => simpa [processArticles] using ih acc
    | tweet art =>
      cases h : extract_tweet_data art with
      | none => simpa [processArticles, h] using ih acc
      | some t =>
        simp only [List.cons_append, processArticles, h]
        split
        · exact ih acc
        · exact ih (acc ++ [t])

/-- Claim C6: a fault while processing one candidate element, and
likewise an extraction that fails for want of an identifier, is
absorbed by the scan — the scan of the remaining elements proceeds
exactly as if the offending element were absent, so the surrounding
loop never ends on it; and an article without a status anchor makes
the whole extraction return no record. -/
theorem claim_C6 :
    (∀ (acc : List PostRecord) (xs ys : List ArticleOutcome),
      processArticles acc (xs ++ ArticleOutcome.fault :: ys) =
        processArticles acc (xs ++ ys)) ∧
    (∀ a : ArticleInput, a.statusHref = none → extract_tweet_data a = none) ∧
    (∀ (acc : List PostRecord) (xs : List ArticleOutcome) (a : ArticleInput)
      (ys : List ArticleOutcome), extract_tweet_data a = none →
      processArticles acc (xs ++ ArticleOutcome.tweet a :: ys) =
        processArticles acc (xs ++ ys)) := by
  refine ⟨fun acc xs ys => processArticles_skip_fault xs ys acc,
    fun a h => ?_,
    fun acc xs a ys hfail => processArticles_skip_failed xs ys a hfail acc⟩
  simp [extract_tweet_data, h]

/-! ## Claim C2: identity-based deduplication -/

/-- Ids of an appended record. -/
theorem idsOf_append (l : List PostRecord) (t : PostRecord) :
    idsOf (l ++ [t]) = idsOf l ++ [t.id] := by
  simp [idsOf]

/-- One scan preserves distinctness of the accepted ids. -/
theorem processArticles_nodup (arts : List ArticleOutcome) :
    ∀ acc : List PostRecord, (idsOf acc).Nodup →
      (idsOf (processArticles acc arts)).Nodup := by
  induction arts with
  | nil => intro acc h; simpa [processArticles] using h
  | cons a rest ih =>
    intro acc h
    cases a with
    | fault => simpa [processArticles] using ih acc h
    | notTweet => simpa [processArticles] using ih acc h
    | tweet art =>
      cases hx : extract_tweet_data art with
      | none => simpa [processArticles, hx] using ih acc h
      | some t =>
        simp only [processArticles, hx]
        split
        · exact ih acc h
        · rename_i hmem
          refine ih (acc ++ [t]) ?_
          rw [idsOf_append]
          simp [List.nodup_append, h, hmem]

/-- Every state of the loop keeps the accepted ids distinct. -/
theorem loopAux_nodup (env : ScrapeEnv) :
    ∀ (fuel : Nat) (s : LoopState), (idsOf s.tweets).Nodup →
      (idsOf (loopAux env fuel s).tweets).Nodup := by
  intro fuel
  induction fuel with
  | zero =>
    intro s h
    simp only [loopAux]
    split <;> simpa using h
  | succ fuel ih =>
    intro s h
    simp only [loopAux]
    split
    · simpa using h
    · split
      · exact processArticles_nodup _ s.tweets h
      · split
        · exact processArticles_nodup _ s.tweets h
        · exact ih _ (processArticles_nodup _ s.tweets h)

/-- Claim C2: within one run two elements with the same extracted id
keep only the first-scanned record — the accepted ids of any run are
pairwise distinct, and in the concrete three-cycle scenario with ids
1,2 then 2,3 then 4 the accepted records are exactly 1,2,3,4 in order,
the record of id 2 keeping the text of cycle 1 while cycle 2's
same-id element is rejected. -/
theorem claim_C2 :
    (∀ env : ScrapeEnv, (idsOf (scrape_tweets env).tweets).Nodup) ∧
    idsOf (scrape_tweets dedupEnv).tweets = ["1", "2", "3", "4"] ∧
    (scrape_tweets dedupEnv).tweets.map PostRecord.text =
      ["t1", "first", "t3", "t4"] := by
  refine ⟨?_, rfl, rfl⟩
  intro env
  by_cases h : env.loaded
  · simpa [scrape_tweets, h] using
      loopAux_nodup env max_scroll_attempts ⟨[], env.h0, 0, 0⟩ (by simp [idsOf])
  · simp [scrape_tweets, h, idsOf]

/-! ## Claim C3: bounded termination -/

/-- Attempt count grows by at most the available fuel. -/
theorem loopAux_attempts_le (env : ScrapeEnv) :
    ∀ (fuel : Nat) (s : LoopState),
      (loopAux env fuel s).attempts ≤ s.attempts + fuel := by
  intro fuel
  induction fuel with
  | zero =>
    intro s
    simp only [loopAux]
    split <;> simp
  | succ fuel ih =>
    intro s
    simp only [loopAux]
    split
    · simp
    · split
      · simp
      · split
        · simp
        · calc (loopAux env fuel _).attempts ≤ (s.attempts + 1) + fuel := ih _
            _ = s.attempts + (fuel + 1) := by omega

/-- Claim C3: for every environment — any article sets, extraction
results and measured heights — the pagination loop runs at most
`max_scroll_attempts` scan cycles, and that ceiling is 30. -/
theorem claim_C3 :
    (∀ env : ScrapeEnv, (scrape_tweets env).attempts ≤ max_scroll_attempts) ∧
    max_scroll_attempts = 30 := by
  refine ⟨?_, rfl⟩
  intro env
  by_cases h : env.loaded
  · simpa [scrape_tweets, h] using
      loopAux_attempts_le env max_scroll_attempts ⟨[], env.h0, 0, 0⟩
  · simp [scrape_tweets, h]

/-! ## Claims C7 and C9: per-target containment in `main` -/

/-- Claim C7: a timed-out initial wait makes the run return the empty
record sequence, and the batch appends the zero-count "No tweets
found" summary row for that target while every other target of the
batch is processed unchanged. -/
theorem claim_C7 (env : ScrapeEnv) (c : Company)
    (pre post : List (Company × TargetOutcome)) (h : env.loaded = false) :
    (scrape_tweets env).tweets = [] ∧
    mainLoop (pre ++ (c, TargetOutcome.run env) :: post) =
      mainLoop pre ++
        SummaryRow.mk c.name c.handle "No tweets found" 0 0 :: mainLoop post := by
  have hs : scrape_tweets env = ⟨[], ExitReason.loadTimeout, 0⟩ := by
    simp [scrape_tweets, h]
  exact ⟨by rw [hs], by simp [mainLoop, processTarget, hs]⟩

/-- Claim C7, witness: the timed-out first target yields the
zero-count row and the second target is still processed. -/
theorem claim_C7_witness :
    (scrape_tweets timeoutEnv).tweets = [] ∧
    mainLoop ([] ++ (compA, TargetOutcome.run timeoutEnv) ::
        [(compB, TargetOutcome.fault "boom")]) =
      mainLoop [] ++
        SummaryRow.mk compA.name compA.handle "No tweets found" 0 0 ::
          mainLoop [(compB, TargetOutcome.fault "boom")] :=
  claim_C7 timeoutEnv compA [] [(compB, TargetOutcome.fault "boom")] rfl

/-- Claim C9: a fault at any stage of one target reduces to a summary
row carrying the failure reason with zero counts, and the rows of the
targets before and after it are computed exactly as without it. -/
theorem claim_C9 (c : Company) (msg : String)
    (pre post : List (Company × TargetOutcome)) :
    mainLoop (pre ++ (c, TargetOutcome.fault msg) :: post) =
      mainLoop pre ++
        SummaryRow.mk c.name c.handle ("Error: " ++ msg) 0 0 :: mainLoop post := by
  simp [mainLoop, processTarget]

/-! ## Claim C10: the record ceiling is checked only between cycles -/

/-- Accepted records are never dropped by a later scan. -/
theorem processArticles_mono (arts : List ArticleOutcome) :
    ∀ (acc : List PostRecord) (x : String), x ∈ idsOf acc →
      x ∈ idsOf (processArticles acc arts) := by
  induction arts with
  | nil => intro acc x hx; simpa [processArticles] using hx
  | cons a rest ih =>
    intro acc x hx
    cases a with
    | fault => simpa [processArticles] using ih acc x hx
    | notTweet => simpa [processArticles] using ih acc x hx
    | tweet art =>
      cases h : extract_tweet_data art with
      | none => simpa [processArticles, h] using ih acc x hx
      | some t =>
        simp only [processArticles, h]
        split
        · exact ih acc x hx
        · exact ih (acc ++ [t]) x (by rw [idsOf_append]; exact List.mem_append_left _ hx)

/-- Every record successfully extracted during a scan has its id in
the scan result. -/
theorem processArticles_covers (arts : List ArticleOutcome) :
    ∀ (acc : List PostRecord) (a : ArticleInput) (t : PostRecord),
      ArticleOutcome.tweet a ∈ arts → extract_tweet_data a = some t →
      t.id ∈ idsOf (processArticles acc arts) := by
  induction arts with
  | nil => intro acc a t hmem _; simp at hmem
  | cons b rest ih =>
    intro acc a t hmem hext
    rcases List.mem_cons.1 hmem with hb | hb
    · subst hb
      simp only [processArticles, hext]
      split
      · rename_i hin
        exact processArticles_mono rest acc t.id hin
      · exact processArticles_mono rest (acc ++ [t]) t.id
          (by rw [idsOf_append]; simp)
    · cases b with
      | fault => simpa [processArticles] using ih acc a t hb hext
      | notTweet => simpa [processArticles] using ih acc a t hb hext
      | tweet art =>
        cases h2 : extract_tweet_data art with
        | none => simpa [processArticles, h2] using ih acc a t hb hext
        | some u =>
          simp only [processArticles, h2]
          split
          · exact ih acc a t hb hext
          · exact ih (acc ++ [u]) a t hb hext

/-- Claim C10: the record ceiling is consulted only between scan
cycles — a state already at or above `TWEET_LIMIT` starts no further
cycle and is returned untruncated; within one cycle every
newly-extracted unique record is appended regardless of the count; and
the concrete run whose cycles carry 99 then 5 fresh records returns
104 records, exceeding the ceiling of 100. -/
theorem claim_C10 :
    (∀ (env : ScrapeEnv) (fuel : Nat) (s : LoopState),
      TWEET_LIMIT ≤ s.tweets.length →
      loopAux env fuel s = ⟨s.tweets, ExitReason.limitReached, s.attempts⟩) ∧
    (∀ (arts : List ArticleOutcome) (acc : List PostRecord) (a : ArticleInput)
      (t : PostRecord), ArticleOutcome.tweet a ∈ arts →
      extract_tweet_data a = some t →
      t.id ∈ idsOf (processArticles acc arts)) ∧
    (scrape_tweets ceilingEnv).tweets.length = 104 ∧ TWEET_LIMIT < 104 := by
  refine ⟨?_, fun arts acc a t hm he => processArticles_covers arts acc a t hm he,
    rfl, by decide⟩
  intro env fuel s h
  cases fuel <;> simp [loopAux, h]

end Scraper
